import Mathlib

/-!
Verification of the core game logic of `war.c` (single-player territory
conquest game): the territory data model, the attack-resolution algorithm
`simularAtaque`, the mission evaluator `verificarVitoria`, and registry
initialization `inicializarTerritorios`.

Shallow embedding notes:
* `tropas` is a C `int`, embedded as `Int` (no arithmetic here comes near
  the 32-bit bounds, so no wrap-around modelling is needed).
* C strings (`char[TAM_NOME]`, `char[TAM_COR]`) are embedded as `String`;
  every string the program ever stores fits its buffer, so the `strncpy`
  truncation at `TAM_NOME - 1` / `TAM_COR - 1` is the identity on all
  reachable data.
* The two dice rolls `rand() % 6 + 1` are passed in explicitly, so the
  resolver is a pure function of (attacker, defender, rolls), matching the
  seeded-testing requirement of the design.
* `simularAtaque` mutates its two territories through pointers in C; here
  it returns the updated pair, and the early-return error paths become
  `Except.error` (which carries no updated state: no mutation occurred).
-/

/-- Territory record from `war.c`: name, owning army color, troop count. -/
structure Territorio where
  nome : String
  corExercito : String
  tropas : Int
deriving Repr, DecidableEq

/-- `TOTAL_TERRITORIOS` constant from `war.c`. -/
def TOTAL_TERRITORIOS : Nat := 5

/-- Player color constant `corJogador` from `main` in `war.c`. -/
def corJogador : String := "Azul"

/-- Seed table of territory names (`nomes` array in `inicializarTerritorios`). -/
def nomesSeed : List String :=
  ["Amazonas", "Cerrado", "Pantanal", "Caatinga", "Mata Atlantica"]

/-- Seed table of initial owner colors (`cores` array in `inicializarTerritorios`). -/
def coresSeed : List String :=
  ["Verde", "Azul", "Vermelho", "Amarelo", "Roxo"]

/-- Seed table of initial troop counts (`tropas` array in `inicializarTerritorios`). -/
def tropasSeed : List Int := [5, 4, 6, 3, 5]

/-- One iteration of the `inicializarTerritorios` loop body: read the three
seed arrays at index `i` and build the territory. The C arrays have 5
entries and the C code performs no bounds check: an index past 4 reads out
of bounds, which is undefined behavior. `none` marks that the run has left
defined behavior — it is not an error value the C function computes or
signals. -/
def seedTerritorio (i : Nat) : Option Territorio := do
  let nome ← nomesSeed.get? i
  let cor ← coresSeed.get? i
  let t ← tropasSeed.get? i
  pure { nome := nome, corExercito := cor, tropas := t }

/-- `alocarMapa total` followed by `inicializarTerritorios(territorios, total)`
from `war.c`: fill positions `0 .. total-1` from the fixed seed tables, in
loop order. The C function is `void` and performs no bounds check; `none`
propagates the undefined-behavior marker of an out-of-bounds seed read,
reachable exactly when `total` exceeds the seed table length. -/
def inicializarTerritorios : Nat → Option (List Territorio)
  | 0 => some []
  | n + 1 => do
    let ts ← inicializarTerritorios n
    let t ← seedTerritorio n
    pure (ts ++ [t])

/-- The two early-return failure modes of `simularAtaque` (attacker,
respectively defender, has no troops). -/
inductive AtaqueErro where
  | attackerEmpty
  | defenderEmpty
deriving Repr, DecidableEq

/-- Line 287 of `war.c`: `defensor->tropas -= 1` (defender loses one troop
after a winning attack roll). -/
def aplicarPerdaDefensor (defensor : Territorio) : Territorio :=
  { defensor with tropas := defensor.tropas - 1 }

/-- Lines 289-305 of `war.c`: conquest handling applied to the defender
after its loss. If the defender dropped to `<= 0` troops, its color becomes
the attacker's and one troop moves in: attacker loses a troop when it had
more than one, otherwise it is left at 0; the defender ends at 1 either
way. Otherwise both records are left as given. -/
def tratarConquista (atacante defensor : Territorio) : Territorio × Territorio :=
  if defensor.tropas ≤ 0 then
    if atacante.tropas > 1 then
      ({ atacante with tropas := atacante.tropas - 1 },
       { defensor with corExercito := atacante.corExercito, tropas := 1 })
    else
      ({ atacante with tropas := 0 },
       { defensor with corExercito := atacante.corExercito, tropas := 1 })
  else (atacante, defensor)

/-- `simularAtaque` from `war.c`, lines 266-312, with the two dice rolls
passed explicitly. Returns the updated (attacker, defender) pair, or the
error of the early-return path taken before any dice are rolled. The
`corJogador` argument is received (as in the C signature) and never read. -/
def simularAtaque (atacante defensor : Territorio) (corJogador : String)
    (dadoAtaque dadoDefesa : Int) : Except AtaqueErro (Territorio × Territorio) :=
  if atacante.tropas ≤ 0 then .error .attackerEmpty
  else if defensor.tropas ≤ 0 then .error .defenderEmpty
  else if dadoAtaque ≥ dadoDefesa then
    .ok (tratarConquista atacante (aplicarPerdaDefensor defensor))
  else
    .ok (atacante, defensor)

/-- `verificarVitoria` from `war.c`, lines 353-371. Mission 0 (destroy
army): scan for a territory still owned by the target color with troops;
mission 1 (conquer 3): count the player's territories and compare with the
constant 3. Returns the C `int` result (1 true, 0 false). The registry is
taken `const` in C; here it is simply an argument of a pure function. -/
def verificarVitoria (territorios : List Territorio) (idMissao : Int)
    (alvoMissao corJogador : String) : Int :=
  if idMissao = 0 then
    if territorios.any (fun t => t.corExercito == alvoMissao && decide (t.tropas > 0))
    then 0 else 1
  else if idMissao = 1 then
    if (territorios.countP (fun t => t.corExercito == corJogador)) ≥ 3 then 1 else 0
  else 0

/-- The initial registry of the reference configuration, written out: the
value of `inicializarTerritorios TOTAL_TERRITORIOS`. -/
def mapaInicial : List Territorio :=
  [⟨"Amazonas", "Verde", 5⟩, ⟨"Cerrado", "Azul", 4⟩, ⟨"Pantanal", "Vermelho", 6⟩,
   ⟨"Caatinga", "Amarelo", 3⟩, ⟨"Mata Atlantica", "Roxo", 5⟩]

/-! ## Theorems -/

/-- C1: for every attack where both sides start with positive troops and the
defender's troop count reaches 0 after a winning roll (a conquest),
`simularAtaque` leaves the defender with the attacker's color and exactly 1
troop, and the attacker with `max (old troops - 1) 0`. -/
theorem simularAtaque_conquista (atacante defensor : Territorio) (corJogador : String)
    (dadoAtaque dadoDefesa : Int)
    (ha : 0 < atacante.tropas) (hd : 0 < defensor.tropas)
    (hwin : dadoAtaque ≥ dadoDefesa)
    (hz : (aplicarPerdaDefensor defensor).tropas = 0)
    (a2 d2 : Territorio)
    (hok : simularAtaque atacante defensor corJogador dadoAtaque dadoDefesa =
      .ok (a2, d2)) :
    d2.corExercito = atacante.corExercito ∧ d2.tropas = 1 ∧
      a2.tropas = max (atacante.tropas - 1) 0 := by
  unfold simularAtaque at hok
  rw [if_neg (by omega), if_neg (by omega), if_pos hwin] at hok
  unfold tratarConquista at hok
  rw [if_pos (le_of_eq hz)] at hok
  by_cases h1 : atacante.tropas > 1
  · rw [if_pos h1] at hok
    simp only [Except.ok.injEq, Prod.mk.injEq] at hok
    obtain ⟨ha2, hd2⟩ := hok
    subst ha2; subst hd2
    refine ⟨rfl, rfl, ?_⟩
    simp only
    omega
  · rw [if_neg h1] at hok
    simp only [Except.ok.injEq, Prod.mk.injEq] at hok
    obtain ⟨ha2, hd2⟩ := hok
    subst ha2; subst hd2
    refine ⟨rfl, rfl, ?_⟩
    simp only
    omega

/-- Witness for C1: attacker (Amazonas, Verde, 5 troops) conquers defender
(Cerrado, Azul, 1 troop) with rolls 6 vs 1. -/
theorem simularAtaque_conquista_witness :
    (Territorio.mk "Cerrado" "Verde" 1).corExercito =
        (Territorio.mk "Amazonas" "Verde" 5).corExercito ∧
      (Territorio.mk "Cerrado" "Verde" 1).tropas = 1 ∧
      (Territorio.mk "Amazonas" "Verde" 4).tropas =
        max ((Territorio.mk "Amazonas" "Verde" 5).tropas - 1) 0 :=
  simularAtaque_conquista ⟨"Amazonas", "Verde", 5⟩ ⟨"Cerrado", "Azul", 1⟩ "Azul" 6 1
    (by decide) (by decide) (by decide) (by decide)
    ⟨"Amazonas", "Verde", 4⟩ ⟨"Cerrado", "Verde", 1⟩ rfl

/-- C3: if the attacker has no troops, `simularAtaque` fails with
`attackerEmpty`; if the attacker has troops but the defender has none, it
fails with `defenderEmpty`. These checks happen before the dice are read:
whenever either precondition fails, the result is the same for any pair of
rolls. The error outcome carries no updated territories, so no state is
modified on these paths. -/
theorem simularAtaque_precondicoes (atacante defensor : Territorio) (corJogador : String)
    (dadoAtaque dadoDefesa dadoAtaque2 dadoDefesa2 : Int) :
    (atacante.tropas ≤ 0 →
      simularAtaque atacante defensor corJogador dadoAtaque dadoDefesa =
        .error .attackerEmpty) ∧
    (0 < atacante.tropas → defensor.tropas ≤ 0 →
      simularAtaque atacante defensor corJogador dadoAtaque dadoDefesa =
        .error .defenderEmpty) ∧
    ((atacante.tropas ≤ 0 ∨ defensor.tropas ≤ 0) →
      simularAtaque atacante defensor corJogador dadoAtaque dadoDefesa =
        simularAtaque atacante defensor corJogador dadoAtaque2 dadoDefesa2) := by
  refine ⟨fun h => ?_, fun h h2 => ?_, fun h => ?_⟩
  · unfold simularAtaque
    rw [if_pos h]
  · unfold simularAtaque
    rw [if_neg (by omega), if_pos h2]
  · unfold simularAtaque
    rcases h with h | h
    · rw [if_pos h, if_pos h]
    · by_cases ha : atacante.tropas ≤ 0
      · rw [if_pos ha, if_pos ha]
      · rw [if_neg ha, if_neg ha, if_pos h, if_pos h]

/-- Witness for C3: an attacker with 0 troops yields `attackerEmpty`, a
defender with 0 troops yields `defenderEmpty`, and the failing result does
not depend on the rolls. -/
theorem simularAtaque_precondicoes_witness :
    simularAtaque ⟨"Amazonas", "Verde", 0⟩ ⟨"Cerrado", "Azul", 2⟩ "Azul" 3 4 =
        .error .attackerEmpty ∧
      simularAtaque ⟨"Amazonas", "Verde", 5⟩ ⟨"Cerrado", "Azul", 0⟩ "Azul" 3 4 =
        .error .defenderEmpty ∧
      simularAtaque ⟨"Amazonas", "Verde", 0⟩ ⟨"Cerrado", "Azul", 2⟩ "Azul" 3 4 =
        simularAtaque ⟨"Amazonas", "Verde", 0⟩ ⟨"Cerrado", "Azul", 2⟩ "Azul" 6 1 :=
  ⟨(simularAtaque_precondicoes _ _ "Azul" 3 4 6 1).1 (by decide),
   (simularAtaque_precondicoes _ _ "Azul" 3 4 6 1).2.1 (by decide) (by decide),
   (simularAtaque_precondicoes _ _ "Azul" 3 4 6 1).2.2 (Or.inl (by decide))⟩

/-- C10: `simularAtaque` never reads its `corJogador` argument: two calls
differing only in the player-color string produce identical results. -/
theorem simularAtaque_independe_corJogador (atacante defensor : Territorio)
    (cor1 cor2 : String) (dadoAtaque dadoDefesa : Int) :
    simularAtaque atacante defensor cor1 dadoAtaque dadoDefesa =
      simularAtaque atacante defensor cor2 dadoAtaque dadoDefesa := rfl

/-- C2: for every attack satisfying the preconditions and rolls in `[1, 6]`:
on `dadoAtaque ≥ dadoDefesa` (ties favor the attacker) the defender loses
exactly one troop before any conquest handling — the result is exactly the
conquest handler applied to the decremented defender, and when no conquest
follows the final defender is the decremented one with the attacker
untouched; on `dadoDefesa > dadoAtaque` neither territory changes. -/
theorem simularAtaque_rolagem (atacante defensor : Territorio) (corJogador : String)
    (dadoAtaque dadoDefesa : Int)
    (ha : 0 < atacante.tropas) (hd : 0 < defensor.tropas)
    (hr1 : 1 ≤ dadoAtaque) (hr2 : dadoAtaque ≤ 6)
    (hr3 : 1 ≤ dadoDefesa) (hr4 : dadoDefesa ≤ 6) :
    (dadoAtaque ≥ dadoDefesa →
      (aplicarPerdaDefensor defensor).tropas = defensor.tropas - 1 ∧
      simularAtaque atacante defensor corJogador dadoAtaque dadoDefesa =
        .ok (tratarConquista atacante (aplicarPerdaDefensor defensor))) ∧
    (dadoAtaque ≥ dadoDefesa → 1 < defensor.tropas →
      simularAtaque atacante defensor corJogador dadoAtaque dadoDefesa =
        .ok (atacante, aplicarPerdaDefensor defensor)) ∧
    (dadoDefesa > dadoAtaque →
      simularAtaque atacante defensor corJogador dadoAtaque dadoDefesa =
        .ok (atacante, defensor)) := by
  refine ⟨fun hwin => ⟨rfl, ?_⟩, fun hwin hmore => ?_, fun hlose => ?_⟩
  · unfold simularAtaque
    rw [if_neg (by omega), if_neg (by omega), if_pos hwin]
  · unfold simularAtaque
    rw [if_neg (by omega), if_neg (by omega), if_pos hwin]
    unfold tratarConquista
    rw [if_neg (by simp only [aplicarPerdaDefensor]; omega)]
  · unfold simularAtaque
    rw [if_neg (by omega), if_neg (by omega), if_neg (by omega)]

/-- Witness for C2: a tie roll (4 vs 4) costs the defender exactly one
troop with the attacker untouched; a losing roll (2 vs 5) changes nothing. -/
theorem simularAtaque_rolagem_witness :
    simularAtaque ⟨"Pantanal", "Vermelho", 6⟩ ⟨"Caatinga", "Amarelo", 3⟩ "Azul" 4 4 =
        .ok (⟨"Pantanal", "Vermelho", 6⟩, ⟨"Caatinga", "Amarelo", 2⟩) ∧
      simularAtaque ⟨"Pantanal", "Vermelho", 6⟩ ⟨"Caatinga", "Amarelo", 3⟩ "Azul" 2 5 =
        .ok (⟨"Pantanal", "Vermelho", 6⟩, ⟨"Caatinga", "Amarelo", 3⟩) :=
  ⟨(simularAtaque_rolagem ⟨"Pantanal", "Vermelho", 6⟩ ⟨"Caatinga", "Amarelo", 3⟩
      "Azul" 4 4 (by decide) (by decide) (by decide) (by decide) (by decide)
      (by decide)).2.1 (by decide) (by decide),
   (simularAtaque_rolagem ⟨"Pantanal", "Vermelho", 6⟩ ⟨"Caatinga", "Amarelo", 3⟩
      "Azul" 2 5 (by decide) (by decide) (by decide) (by decide) (by decide)
      (by decide)).2.2 (by decide)⟩

/-- C4: starting from non-negative troop counts, every successful
`simularAtaque` result again has non-negative troop counts on both sides
(the failing paths return an error and carry no state at all). -/
theorem simularAtaque_tropas_nao_negativas (atacante defensor : Territorio)
    (corJogador : String) (dadoAtaque dadoDefesa : Int)
    (ha : 0 ≤ atacante.tropas) (hd : 0 ≤ defensor.tropas)
    (a2 d2 : Territorio)
    (hok : simularAtaque atacante defensor corJogador dadoAtaque dadoDefesa =
      .ok (a2, d2)) :
    0 ≤ a2.tropas ∧ 0 ≤ d2.tropas := by
  unfold simularAtaque at hok
  by_cases h0 : atacante.tropas ≤ 0
  · rw [if_pos h0] at hok
    simp at hok
  rw [if_neg h0] at hok
  by_cases h1 : defensor.tropas ≤ 0
  · rw [if_pos h1] at hok
    simp at hok
  rw [if_neg h1] at hok
  by_cases h2 : dadoAtaque ≥ dadoDefesa
  · rw [if_pos h2] at hok
    unfold tratarConquista at hok
    by_cases h3 : (aplicarPerdaDefensor defensor).tropas ≤ 0
    · rw [if_pos h3] at hok
      by_cases h4 : atacante.tropas > 1
      · rw [if_pos h4] at hok
        simp only [Except.ok.injEq, Prod.mk.injEq] at hok
        obtain ⟨ha2, hd2⟩ := hok
        subst ha2; subst hd2
        refine ⟨?_, ?_⟩ <;> simp only <;> omega
      · rw [if_neg h4] at hok
        simp only [Except.ok.injEq, Prod.mk.injEq] at hok
        obtain ⟨ha2, hd2⟩ := hok
        subst ha2; subst hd2
        refine ⟨?_, ?_⟩ <;> simp only <;> omega
    · rw [if_neg h3] at hok
      simp only [aplicarPerdaDefensor] at h3
      simp only [Except.ok.injEq, Prod.mk.injEq] at hok
      obtain ⟨ha2, hd2⟩ := hok
      subst ha2; subst hd2
      refine ⟨by omega, ?_⟩
      simp only [aplicarPerdaDefensor]
      omega
  · rw [if_neg h2] at hok
    simp only [Except.ok.injEq, Prod.mk.injEq] at hok
    obtain ⟨ha2, hd2⟩ := hok
    subst ha2; subst hd2
    exact ⟨ha, hd⟩

/-- Witness for C4: the degenerate conquest with a 1-troop attacker (tie
roll 5 vs 5) still leaves both counts non-negative (attacker at 0). -/
theorem simularAtaque_tropas_nao_negativas_witness :
    0 ≤ (Territorio.mk "Amazonas" "Verde" 0).tropas ∧
      0 ≤ (Territorio.mk "Cerrado" "Verde" 1).tropas :=
  simularAtaque_tropas_nao_negativas ⟨"Amazonas", "Verde", 1⟩ ⟨"Cerrado", "Azul", 1⟩
    "Azul" 5 5 (by decide) (by decide)
    ⟨"Amazonas", "Verde", 0⟩ ⟨"Cerrado", "Verde", 1⟩ rfl

/-- C9: across every successful `simularAtaque`, the combined troop total
of the two territories never increases: unchanged when the defense roll
wins, down by exactly 1 when the attack roll wins (with or without
conquest). -/
theorem simularAtaque_soma_tropas (atacante defensor : Territorio)
    (corJogador : String) (dadoAtaque dadoDefesa : Int)
    (ha : 0 < atacante.tropas) (hd : 0 < defensor.tropas)
    (a2 d2 : Territorio)
    (hok : simularAtaque atacante defensor corJogador dadoAtaque dadoDefesa =
      .ok (a2, d2)) :
    (dadoDefesa > dadoAtaque →
      a2.tropas + d2.tropas = atacante.tropas + defensor.tropas) ∧
    (dadoAtaque ≥ dadoDefesa →
      a2.tropas + d2.tropas = atacante.tropas + defensor.tropas - 1) := by
  unfold simularAtaque at hok
  rw [if_neg (by omega), if_neg (by omega)] at hok
  by_cases h2 : dadoAtaque ≥ dadoDefesa
  · rw [if_pos h2] at hok
    refine ⟨fun hlose => absurd h2 (by omega), fun _ => ?_⟩
    unfold tratarConquista at hok
    by_cases h3 : (aplicarPerdaDefensor defensor).tropas ≤ 0
    · rw [if_pos h3] at hok
      simp only [aplicarPerdaDefensor] at h3
      by_cases h4 : atacante.tropas > 1
      · rw [if_pos h4] at hok
        simp only [Except.ok.injEq, Prod.mk.injEq] at hok
        obtain ⟨ha2, hd2⟩ := hok
        subst ha2; subst hd2
        simp only
        omega
      · rw [if_neg h4] at hok
        simp only [Except.ok.injEq, Prod.mk.injEq] at hok
        obtain ⟨ha2, hd2⟩ := hok
        subst ha2; subst hd2
        simp only
        omega
    · rw [if_neg h3] at hok
      simp only [aplicarPerdaDefensor] at h3
      simp only [Except.ok.injEq, Prod.mk.injEq] at hok
      obtain ⟨ha2, hd2⟩ := hok
      subst ha2; subst hd2
      simp only [aplicarPerdaDefensor]
      omega
  · rw [if_neg h2] at hok
    simp only [Except.ok.injEq, Prod.mk.injEq] at hok
    obtain ⟨ha2, hd2⟩ := hok
    subst ha2; subst hd2
    exact ⟨fun _ => rfl, fun hwin => absurd hwin h2⟩

/-- Witness for C9: a winning roll without conquest (6 vs 2) takes the
combined total from 9 to 8, exactly one less. -/
theorem simularAtaque_soma_tropas_witness :
    (Territorio.mk "Pantanal" "Vermelho" 6).tropas +
        (Territorio.mk "Caatinga" "Amarelo" 2).tropas =
      (Territorio.mk "Pantanal" "Vermelho" 6).tropas +
        (Territorio.mk "Caatinga" "Amarelo" 3).tropas - 1 :=
  (simularAtaque_soma_tropas ⟨"Pantanal", "Vermelho", 6⟩ ⟨"Caatinga", "Amarelo", 3⟩
      "Azul" 6 2 (by decide) (by decide)
      ⟨"Pantanal", "Vermelho", 6⟩ ⟨"Caatinga", "Amarelo", 2⟩ rfl).2 (by decide)

/-- C5: mission 0 (destroy army) evaluates to 1 exactly when no territory
in the registry is owned by the target color with a positive troop count.
The registry is an argument of a pure function (the C code takes it
`const`), so evaluation cannot mutate it and is idempotent. -/
theorem verificarVitoria_destruir (territorios : List Territorio)
    (alvoMissao cor : String) :
    verificarVitoria territorios 0 alvoMissao cor = 1 ↔
      ∀ t ∈ territorios, ¬(t.corExercito = alvoMissao ∧ 0 < t.tropas) := by
  unfold verificarVitoria
  rw [if_pos rfl]
  by_cases h : territorios.any
      (fun t => t.corExercito == alvoMissao && decide (t.tropas > 0)) = true
  · rw [if_pos h]
    simp only [List.any_eq_true, Bool.and_eq_true, beq_iff_eq,
      decide_eq_true_eq] at h
    obtain ⟨t, ht, hca, htp⟩ := h
    constructor
    · intro h01
      omega
    · intro hall
      exact absurd ⟨hca, htp⟩ (hall t ht)
  · rw [if_neg h]
    refine ⟨fun _ t ht hc => ?_, fun _ => rfl⟩
    refine h ?_
    simp only [List.any_eq_true, Bool.and_eq_true, beq_iff_eq, decide_eq_true_eq]
    exact ⟨t, ht, hc.1, hc.2⟩

/-- C6: mission 1 (conquer threshold) evaluates to 1 exactly when the
player owns at least 3 territories; the threshold is the literal constant 3
from the source, the same for a registry of any length. -/
theorem verificarVitoria_conquistar (territorios : List Territorio)
    (alvoMissao cor : String) :
    verificarVitoria territorios 1 alvoMissao cor = 1 ↔
      3 ≤ territorios.countP (fun t => t.corExercito == cor) := by
  unfold verificarVitoria
  rw [if_neg (by decide), if_pos rfl]
  by_cases h : territorios.countP (fun t => t.corExercito == cor) ≥ 3
  · rw [if_pos h]
    exact ⟨fun _ => h, fun _ => rfl⟩
  · rw [if_neg h]
    exact ⟨fun h01 => absurd h01 (by omega), fun hc => absurd hc h⟩

/-- C7 (code bug evidence): at the reference count the loop populates all 5
territories from the seed tables, but at the failing input `total = 6` the
loop iteration `i = 5` reads the 5-entry seed arrays out of bounds and the
run leaves defined behavior (`none`): the C code has no bounds check and,
being `void`, returns no error or empty result as the claimed contract
requires. -/
theorem inicializarTerritorios_limite :
    inicializarTerritorios TOTAL_TERRITORIOS = some mapaInicial ∧
      seedTerritorio TOTAL_TERRITORIOS = none ∧
      inicializarTerritorios (TOTAL_TERRITORIOS + 1) = none :=
  ⟨rfl, rfl, rfl⟩

/-- C8 counterexample: the claim that no initial territory is owned by the
player color is false in the reference configuration: initialization
produces `mapaInicial`, whose entry at index 1 (Cerrado) is owned by
"Azul", which is exactly `corJogador`. -/
theorem inicializacao_cor_jogador_contra :
    inicializarTerritorios TOTAL_TERRITORIOS = some mapaInicial ∧
      mapaInicial.get? 1 = some ⟨"Cerrado", corJogador, 4⟩ ∧
      ¬(∀ t ∈ mapaInicial, ¬ t.corExercito = corJogador) := by
  refine ⟨rfl, rfl, ?_⟩
  decide

/-- C8 amended: immediately after initialization, exactly one territory
(index 1, Cerrado) has owner color equal to the player color "Azul" — the
player color does own a territory initially. -/
theorem inicializacao_cor_jogador_amended :
    inicializarTerritorios TOTAL_TERRITORIOS = some mapaInicial ∧
      mapaInicial.countP (fun t => t.corExercito == corJogador) = 1 ∧
      (mapaInicial.get? 1).map Territorio.corExercito = some corJogador := by
  refine ⟨rfl, ?_, rfl⟩
  decide
